import Mathlib

/-!
Verification of the settings-resolution and stack-composition logic of an
AWS CDK deployment repository (`app.py`, `stacks/settings.py`,
`stacks/network.py`, `stacks/protected.py`, `stacks/database.py`,
`stacks/environment.py`).

Each Lean definition is a shallow embedding of the corresponding Python
function.  Python exceptions are modelled with `Except String`; boto3 / AWS
responses are parameters of the embedded functions.
-/

/-!  ## stacks/settings.py  -/

/--
Embedding of a `Settings` subclass (`stacks/settings.py`).  A class is its
attribute table: `attrs` models Python attribute resolution on the class
(`hasattr` / `getattr`, including inherited attributes), as an association
list from attribute name to value.  The concrete tables below list the data
attributes each subclass defines; methods inherited from the `Settings` base
class are not part of the tables since no claim queries a method name.
-/
structure Settings (α : Type) where
  attrs : List (String × α)

/-- `getattr(cls, name)` / `hasattr(cls, name)`: attribute lookup. -/
def Settings.getattr (c : Settings α) (name : String) : Option α :=
  (c.attrs.find? (fun p => p.1 == name)).map Prod.snd

/--
`Settings.get` (settings.py lines 20-36): return the attribute matching the
exact name; otherwise fall back to the `default` attribute; otherwise raise
`KeyError`.
-/
def Settings.get (c : Settings α) (name : String) : Except String α :=
  match c.getattr name with
  | some v => Except.ok v
  | none =>
    match c.getattr "default" with
    | some v => Except.ok v
    | none => Except.error ("KeyError: Not supported: " ++ name)

/--
`Settings.length` (settings.py lines 48-56): the size of a list-valued
setting.  (The `TypeError` branch guards Python dynamic typing; in this
typed embedding the value is a list by construction.)
-/
def Settings.length (c : Settings (List α)) (name : String) : Except String Nat :=
  (c.get name).map List.length

/-- `VpcCidrSettings` (settings.py lines 59-66). -/
def VpcCidrSettings : Settings String :=
  ⟨[("mainnet", "10.0.0.0/16"), ("testnet", "10.1.0.0/16"), ("devnet", "10.11.0.0/16")]⟩

/-- `SharedCacheDatabaseSettings` (settings.py lines 69-76). -/
def SharedCacheDatabaseSettings : Settings Bool :=
  ⟨[("mainnet", true), ("testnet", true), ("devnet", false)]⟩

/-- `PublicSubnetCidrSettings` (settings.py lines 79-97). -/
def PublicSubnetCidrSettings : Settings (List String) :=
  ⟨[("mainnet", ["10.0.0.0/19", "10.0.32.0/19", "10.0.64.0/19"]),
    ("testnet", ["10.1.0.0/19", "10.1.32.0/19"]),
    ("devnet", ["10.11.0.0/19", "10.11.32.0/19"])]⟩

/-- `PrivateSubnetCidrSettings` (settings.py lines 100-118). -/
def PrivateSubnetCidrSettings : Settings (List String) :=
  ⟨[("mainnet", ["10.0.96.0/19", "10.0.128.0/19", "10.0.160.0/19"]),
    ("testnet", ["10.1.64.0/19", "10.1.96.0/19"]),
    ("devnet", ["10.11.64.0/19", "10.11.96.0/19"])]⟩

/-- `AvailabilityZonesSettings` (settings.py lines 121-128). -/
def AvailabilityZonesSettings : Settings (List String) :=
  ⟨[("mainnet", ["a", "b", "c"]), ("testnet", ["a", "b"]), ("devnet", ["a", "b"])]⟩

/-- `MinNodesSettings` (settings.py lines 231-238). -/
def MinNodesSettings : Settings Nat :=
  ⟨[("proddb", 4), ("demodb", 2), ("default", 1)]⟩

/-- `MaxNodesSettings` (settings.py lines 241-248). -/
def MaxNodesSettings : Settings Nat :=
  ⟨[("proddb", 2), ("demodb", 1), ("default", 1)]⟩

/-!  ## stacks/network.py and stacks/protected.py  -/

/--
Embedding of `itertools.cycle` as used by `Settings.cycle`: `base` is the
saved copy of the iterable, `rest` the elements not yet yielded in the
current pass.
-/
structure PyCycle (α : Type) where
  base : List α
  rest : List α

/-- `next(...)` on an `itertools.cycle` iterator: yield the next element of
the current pass, restarting from the saved copy when the pass is done;
a cycle of an empty iterable yields nothing (`StopIteration`). -/
def PyCycle.next (c : PyCycle α) : Option (α × PyCycle α) :=
  match c.rest with
  | x :: xs => some (x, ⟨c.base, xs⟩)
  | [] =>
    match c.base with
    | x :: xs => some (x, ⟨c.base, xs⟩)
    | [] => none

/-- `Settings.cycle` (settings.py lines 38-46): iterate over a list-valued
setting infinitely.  (As in `Settings.length`, the `TypeError` branch is
vacuous in this typed embedding.) -/
def Settings.cycle (c : Settings (List α)) (name : String) : Except String (PyCycle α) :=
  (c.get name).map (fun v => ⟨v, v⟩)

/-- An `ec2.Subnet` as created by `NetworkStack`: the fields the claims
depend on. -/
structure Subnet where
  cidrBlock : String
  availabilityZone : String
deriving DecidableEq

/-- Helper for `pySplitOn`: split a character list at every occurrence of
the separator. -/
def pySplitOnAux (sep : Char) : List Char → List Char → List String
  | [], acc => [String.mk acc.reverse]
  | c :: cs, acc =>
    if c = sep then String.mk acc.reverse :: pySplitOnAux sep cs []
    else pySplitOnAux sep cs (c :: acc)

/-- Python `str.split` with a one-character separator, as in
`cidr_block.split(".")`. -/
def pySplitOn (sep : Char) (s : String) : List String :=
  pySplitOnAux sep s.data []

/-- The CIDR check of `NetworkStack._create_public_subnets` /
`_create_private_subnets` (network.py lines 126 and 148):
`cidr_block.split(".")[:2] != vpc_cidr.split(".")[:2]`. -/
def cidrPrefixMismatch (cidrBlock vpcCidr : String) : Bool :=
  (pySplitOn '.' cidrBlock).take 2 != (pySplitOn '.' vpcCidr).take 2

/-- The `RuntimeError` raised on a CIDR mismatch (network.py lines 127/149). -/
def cidrMismatchError : String :=
  "RuntimeError: The VPC CIDR and the subnet CIDR do not match"

/-- The loop body shared by `NetworkStack._create_public_subnets` and
`_create_private_subnets` (network.py lines 124-135 / 146-157): for each CIDR
block in order, raise `RuntimeError` if its first two dotted components
differ from the VPC CIDR, otherwise create a subnet whose availability zone
is the region followed by the next element of the cycled zone list. -/
def createSubnetsAux (region vpcCidr : String) :
    List String → PyCycle String → Except String (List Subnet)
  | [], _ => Except.ok []
  | cidrBlock :: rest, azs =>
    if cidrPrefixMismatch cidrBlock vpcCidr then Except.error cidrMismatchError
    else
      match azs.next with
      | none => Except.error "StopIteration"
      | some (az, azs2) =>
        (createSubnetsAux region vpcCidr rest azs2).map
          (fun subs => { cidrBlock := cidrBlock, availabilityZone := region ++ az } :: subs)

/-- `NetworkStack._create_public_subnets` (network.py lines 115-135). -/
def NetworkStack.createPublicSubnets (region network : String) :
    Except String (List Subnet) := do
  let vpcCidr ← VpcCidrSettings.get network
  let cidrBlocks ← PublicSubnetCidrSettings.get network
  let azs ← AvailabilityZonesSettings.cycle network
  createSubnetsAux region vpcCidr cidrBlocks azs

/-- `NetworkStack._create_private_subnets` (network.py lines 137-157). -/
def NetworkStack.createPrivateSubnets (region network : String) :
    Except String (List Subnet) := do
  let vpcCidr ← VpcCidrSettings.get network
  let cidrBlocks ← PrivateSubnetCidrSettings.get network
  let azs ← AvailabilityZonesSettings.cycle network
  createSubnetsAux region vpcCidr cidrBlocks azs

/-- The export name of the VPC id (network.py line 61, protected.py line 83):
`{application}::{network}::vpc::id`. -/
def vpcExportName (application network : String) : String :=
  application ++ "::" ++ network ++ "::vpc::id"

/-- The export name of the 1-indexed public subnet number `num`
(network.py line 68, protected.py lines 87/113):
`{application}::{network}::subnet::public::{num}::id`. -/
def publicSubnetExportName (application network : String) (num : Nat) : String :=
  application ++ "::" ++ network ++ "::subnet::public::" ++ toString num ++ "::id"

/-- The export name of the 1-indexed private subnet number `num`
(network.py line 75, protected.py lines 91/130):
`{application}::{network}::subnet::private::{num}::id`. -/
def privateSubnetExportName (application network : String) (num : Nat) : String :=
  application ++ "::" ++ network ++ "::subnet::private::" ++ toString num ++ "::id"

/-- `NetworkStack.export` (network.py lines 53-77): the list of export names
published, given the deployed public and private subnet lists — the VPC id
name plus one name per public subnet and one per private subnet, with the
loop index `index + 1` in the name. -/
def NetworkStack.exportNames (application network : String)
    (publicSubnets privateSubnets : List Subnet) : List String :=
  vpcExportName application network ::
    (List.range publicSubnets.length).map
      (fun index => publicSubnetExportName application network (index + 1)) ++
    (List.range privateSubnets.length).map
      (fun index => privateSubnetExportName application network (index + 1))

/-- `NetworkStack.deploy` followed by `NetworkStack.export` (network.py
lines 79-96 and 53-77), restricted to the subnet resources: validate the
application, network and region names, create the subnets, and publish the
export names. -/
def NetworkStack.deployExportNames (application network region : String) :
    Except String (List String) := do
  if application = "" then Except.error "AttributeError: Unknown application name" else
  if network = "" then Except.error "AttributeError: Unknown network name" else
  if region = "" then Except.error "AttributeError: Unknown region name" else do
    let publicSubnets ← NetworkStack.createPublicSubnets region network
    let privateSubnets ← NetworkStack.createPrivateSubnets region network
    Except.ok (NetworkStack.exportNames application network publicSubnets privateSubnets)

/-- An `ec2.Subnet` imported by `NetworkProtectedStack` from its exported
attributes (protected.py). -/
structure ImportedSubnet where
  subnetId : String
  availabilityZone : String
deriving DecidableEq

/-- The comprehension body shared by
`NetworkProtectedStack._import_public_subnets` and
`_import_private_subnets` (protected.py lines 109-117 / 126-134): for each
index of the range, import the subnet with the 1-indexed export name and an
availability zone drawn from the cycled zone list. -/
def importSubnetsGo (region : String) (name : Nat → String) :
    List Nat → PyCycle String → Except String (List ImportedSubnet)
  | [], _ => Except.ok []
  | index :: rest, azs =>
    match azs.next with
    | none => Except.error "StopIteration"
    | some (az, azs2) =>
      (importSubnetsGo region name rest azs2).map
        (fun subs => { subnetId := name (index + 1), availabilityZone := region ++ az } :: subs)

/-- `NetworkProtectedStack._import_public_subnets` (protected.py
lines 96-117). -/
def NetworkProtectedStack.importPublicSubnets (region application network : String) :
    Except String (List ImportedSubnet) := do
  if region = "" then Except.error "AttributeError: Region is empty" else
  if network = "" then Except.error "AttributeError: Network is empty" else
  if application = "" then Except.error "AttributeError: Application is empty" else do
    let azs ← AvailabilityZonesSettings.cycle network
    let count ← PublicSubnetCidrSettings.length network
    importSubnetsGo region (publicSubnetExportName application network) (List.range count) azs

/-- `NetworkProtectedStack._import_private_subnets` (protected.py
lines 119-134). -/
def NetworkProtectedStack.importPrivateSubnets (region application network : String) :
    Except String (List ImportedSubnet) := do
  let azs ← AvailabilityZonesSettings.cycle network
  let count ← PrivateSubnetCidrSettings.length network
  importSubnetsGo region (privateSubnetExportName application network) (List.range count) azs

/-- `NetworkProtectedStack._import_vpc` (protected.py lines 72-94) followed
by the subnet imports of `NetworkProtectedStack.load` (lines 56-70): the
list of import names looked up via `Fn.import_value` — the VPC id plus the
public and private subnet ids (listed by `_import_vpc`), then the public and
private subnet ids again (looked up by `_import_public_subnets` and
`_import_private_subnets`). -/
def NetworkProtectedStack.loadImportNames (application network region : String) :
    Except String (List String) := do
  if application = "" then Except.error "AttributeError: Unknown application name" else
  if network = "" then Except.error "AttributeError: Unknown network name" else
  if region = "" then Except.error "AttributeError: Unknown region name" else do
    let _vpcCidr ← VpcCidrSettings.get network
    let _azs ← AvailabilityZonesSettings.get network
    let publicCidrs ← PublicSubnetCidrSettings.get network
    let privateCidrs ← PrivateSubnetCidrSettings.get network
    Except.ok
      ((vpcExportName application network ::
          (List.range publicCidrs.length).map
            (fun index => publicSubnetExportName application network (index + 1)) ++
          (List.range privateCidrs.length).map
            (fun index => privateSubnetExportName application network (index + 1))) ++
        (List.range publicCidrs.length).map
          (fun index => publicSubnetExportName application network (index + 1)) ++
        (List.range privateCidrs.length).map
          (fun index => privateSubnetExportName application network (index + 1)))

/-!  ## stacks/database.py  -/

/-- An AWS RDS snapshot as listed by `describe_db_snapshots`: the only field
`_snapshot_exists` inspects is `Status`. -/
structure DBSnapshot where
  status : String
deriving DecidableEq

/-- Helper for `pyInStr`: does the needle occur at some position of the
haystack? -/
def pyInStrAux (needle : List Char) : List Char → Bool
  | [] => needle.isEmpty
  | c :: cs => needle.isPrefixOf (c :: cs) || pyInStrAux needle cs

/-- Python `needle in haystack` on strings, as in
`"DBSnapshotNotFound" in str(error)` (database.py line 190): substring
containment. -/
def pyInStr (needle haystack : String) : Bool :=
  pyInStrAux needle.data haystack.data

/-- `DatabaseStack._snapshot_exists` (database.py lines 145-201).  The boto3
call `client.describe_db_snapshots(...)` is a parameter: either the
exception it raised (as its string form) or the listed snapshots.  A
`DBSnapshotNotFound` failure means no snapshot; any other exception is
re-raised.  On a successful listing, the loop returns on its first
iteration: `True` if the first snapshot is `available`, else `False`; an
empty listing falls through to `False`. -/
def DatabaseStack.snapshotExists (response : Except String (List DBSnapshot)) :
    Except String Bool :=
  match response with
  | Except.error e =>
    if pyInStr "DBSnapshotNotFound" e then Except.ok false else Except.error e
  | Except.ok snapshots =>
    match snapshots with
    | [] => Except.ok false
    | snapshot :: _ => Except.ok (snapshot.status == "available")

/-- How `DatabaseStack._create_db` builds the RDS instance. -/
inductive DbCreation : Type
  | fromSnapshot : DbCreation
  | fromScratch : DbCreation
deriving DecidableEq

/-- `DatabaseStack._create_db` (database.py lines 213-221): restore from a
snapshot when `_snapshot_exists()` is true, create from scratch otherwise,
and propagate any exception `_snapshot_exists` re-raises. -/
def DatabaseStack.createDb (response : Except String (List DBSnapshot)) :
    Except String DbCreation :=
  match DatabaseStack.snapshotExists response with
  | Except.error e => Except.error e
  | Except.ok true => Except.ok DbCreation.fromSnapshot
  | Except.ok false => Except.ok DbCreation.fromScratch

/-!  ## app.py  -/

/-- The ten concrete stacks instantiated by app.py, in program order
(lines 77-252): each is instantiated and its `load`, `deploy` and `export`
run before the next one is instantiated. -/
def appStackOrder : List String :=
  ["registry", "network", "security", "bastion", "application",
   "media", "cache", "opensearch", "database", "environment"]

/-- The ordering constraints declared via `add_dependency` in app.py
(lines 259-272), as pairs `(dependent, dependedUpon)`:
`a.add_dependency(b)` declares that stack `a` depends on stack `b`. -/
def appDependencies : List (String × String) :=
  [("registry", "network"),
   ("bastion", "network"),
   ("security", "network"),
   ("database", "network"),
   ("media", "network"),
   ("cache", "network"),
   ("bastion", "security"),
   ("opensearch", "security"),
   ("application", "registry"),
   ("environment", "security"),
   ("environment", "cache"),
   ("environment", "database"),
   ("environment", "opensearch"),
   ("environment", "application")]

/-!  ## stacks/environment.py  -/

/-- `2 ** 32`, the modulus of all 32-bit SHA-256 word operations. -/
def M32 : Nat := 4294967296

/-- 32-bit right rotation (on words below `M32`). -/
def rotr32 (n x : Nat) : Nat := ((x >>> n) ||| (x <<< (32 - n))) % M32

/-- The SHA-256 round constants. -/
def sha256K : List Nat :=
  [1116352408, 1899447441, 3049323471, 3921009573, 961987163, 1508970993,
   2453635748, 2870763221, 3624381080, 310598401, 607225278, 1426881987,
   1925078388, 2162078206, 2614888103, 3248222580, 3835390401, 4022224774,
   264347078, 604807628, 770255983, 1249150122, 1555081692, 1996064986,
   2554220882, 2821834349, 2952996808, 3210313671, 3336571891, 3584528711,
   113926993, 338241895, 666307205, 773529912, 1294757372, 1396182291,
   1695183700, 1986661051, 2177026350, 2456956037, 2730485921, 2820302411,
   3259730800, 3345764771, 3516065817, 3600352804, 4094571909, 275423344,
   430227734, 506948616, 659060556, 883997877, 958139571, 1322822218,
   1537002063, 1747873779, 1955562222, 2024104815, 2227730452, 2361852424,
   2428436474, 2756734187, 3204031479, 3329325298]

/-- The SHA-256 initial hash state. -/
def sha256H0 : List Nat :=
  [1779033703, 3144134277, 1013904242, 2773480762,
   1359893119, 2600822924, 528734635, 1541459225]

/-- A natural number as `k` big-endian bytes. -/
def natToBytesBE : Nat → Nat → List Nat
  | 0, _ => []
  | k + 1, n => natToBytesBE k (n >>> 8) ++ [n % 256]

/-- SHA-256 message padding: append `0x80`, zero bytes up to 56 mod 64, and
the 8-byte big-endian bit length. -/
def sha256Pad (msg : List Nat) : List Nat :=
  let bitLen := msg.length * 8
  let zeros := (119 - (msg.length % 64)) % 64
  msg ++ 0x80 :: List.replicate zeros 0 ++ natToBytesBE 8 bitLen

/-- Group bytes into big-endian 32-bit words. -/
def bytesToWordsBE : List Nat → List Nat
  | b1 :: b2 :: b3 :: b4 :: rest =>
    (((b1 * 256 + b2) * 256 + b3) * 256 + b4) :: bytesToWordsBE rest
  | _ => []

/-- Extend a 16-word block to the 64-word SHA-256 message schedule. -/
def sha256Schedule (block : List Nat) : List Nat :=
  let w := (List.range 48).foldl
    (fun (w : Array Nat) _ =>
      let w15 := w.getD (w.size - 15) 0
      let w2 := w.getD (w.size - 2) 0
      let sig0 := (rotr32 7 w15 ^^^ rotr32 18 w15) ^^^ (w15 >>> 3)
      let sig1 := (rotr32 17 w2 ^^^ rotr32 19 w2) ^^^ (w2 >>> 10)
      w.push ((w.getD (w.size - 16) 0 + sig0 + w.getD (w.size - 7) 0 + sig1) % M32))
    block.toArray
  w.toList

/-- One SHA-256 compression round. -/
def sha256Round (st : Nat × Nat × Nat × Nat × Nat × Nat × Nat × Nat) (kw : Nat × Nat) :
    Nat × Nat × Nat × Nat × Nat × Nat × Nat × Nat :=
  match st, kw with
  | (a, b, c, d, e, f, g, h), (k, w) =>
    let bigS1 := (rotr32 6 e ^^^ rotr32 11 e) ^^^ rotr32 25 e
    let chEFG := (e &&& f) ^^^ (g &&& (e ^^^ (M32 - 1)))
    let t1 := (h + bigS1 + chEFG + k + w) % M32
    let bigS0 := (rotr32 2 a ^^^ rotr32 13 a) ^^^ rotr32 22 a
    let majABC := ((a &&& b) ^^^ (a &&& c)) ^^^ (b &&& c)
    let t2 := (bigS0 + majABC) % M32
    ((t1 + t2) % M32, a, b, c, (d + t1) % M32, e, f, g)

/-- Compress one 16-word block into the running hash state. -/
def sha256Compress (hs : List Nat) (block : List Nat) : List Nat :=
  let w := sha256Schedule block
  let init := (hs.getD 0 0, hs.getD 1 0, hs.getD 2 0, hs.getD 3 0,
               hs.getD 4 0, hs.getD 5 0, hs.getD 6 0, hs.getD 7 0)
  match (sha256K.zip w).foldl sha256Round init with
  | (a, b, c, d, e, f, g, h) =>
    [(hs.getD 0 0 + a) % M32, (hs.getD 1 0 + b) % M32, (hs.getD 2 0 + c) % M32,
     (hs.getD 3 0 + d) % M32, (hs.getD 4 0 + e) % M32, (hs.getD 5 0 + f) % M32,
     (hs.getD 6 0 + g) % M32, (hs.getD 7 0 + h) % M32]

/-- Split a padded word list into 16-word blocks. -/
def sha256ToBlocks : List Nat → List (List Nat)
  | w0 :: w1 :: w2 :: w3 :: w4 :: w5 :: w6 :: w7 ::
    w8 :: w9 :: w10 :: w11 :: w12 :: w13 :: w14 :: w15 :: rest =>
    [w0, w1, w2, w3, w4, w5, w6, w7, w8, w9, w10, w11, w12, w13, w14, w15] ::
      sha256ToBlocks rest
  | _ => []

/-- The UTF-8 bytes of a string, as `s.encode("utf-8")` produces them. -/
def strToBytes (s : String) : List Nat :=
  (s.data.flatMap String.utf8EncodeChar).map (fun b => b.toNat)

/-- Fold the compression function over all 16-word blocks starting from the
initial state. -/
def sha256Blocks (ws : List Nat) : List Nat :=
  (sha256ToBlocks ws).foldl sha256Compress sha256H0

/-- SHA-256 of a string as a natural number — the value of
`int(hashlib.sha256(s.encode("utf-8")).hexdigest(), 16)`
(environment.py line 172). -/
def sha256Nat (s : String) : Nat :=
  let hs := sha256Blocks (bytesToWordsBE (sha256Pad (strToBytes s)))
  hs.foldl (fun acc h => acc * M32 + h) 0

/-- `BeanstalkStack._get_redis_db` (environment.py lines 161-173): raise on a
missing network or environment name; return `"0"` when the shared-cache
setting of the network is truthy; otherwise hash the environment name with
SHA-256, reduce modulo `10 ** 8` and return the last character of the
decimal string — `str(numeric)[-1]`, embedded as the last element of the
decimal digit list. -/
def BeanstalkStack.getRedisDb (network environment : String) : Except String String :=
  if network = "" then Except.error "AttributeError: Network is missing"
  else if environment = "" then Except.error "AttributeError: Environment is missing"
  else do
    let shared ← SharedCacheDatabaseSettings.get network
    if shared then Except.ok "0"
    else
      let numeric : Nat := sha256Nat environment % 10 ^ 8
      Except.ok (String.mk [(Nat.repr numeric).data.getLastD ' '])

/-- `BeanstalkStack._get_autoscaling_options` (environment.py lines 435-446):
the `aws:autoscaling:asg` option block, keyed by the environment tier name. -/
def BeanstalkStack.getAutoscalingOptions (environment : String) :
    Except String (List (String × Nat)) := do
  let minSize ← MinNodesSettings.get environment
  let maxSize ← MaxNodesSettings.get environment
  Except.ok [("MinSize", minSize), ("MaxSize", maxSize)]

/-- Drawing from an `itertools.cycle` iterator over a nonempty list: at state
`⟨azs, azs.drop j⟩` with `j ≤ azs.length`, `next` yields element `j % length`
and moves to state `⟨azs, azs.drop (j % length + 1)⟩`. -/
theorem PyCycle.next_drop {α : Type} (d : α) (azs : List α) (h : azs ≠ []) (j : Nat)
    (hj : j ≤ azs.length) :
    PyCycle.next ⟨azs, azs.drop j⟩ =
      some (azs.getD (j % azs.length) d, ⟨azs, azs.drop (j % azs.length + 1)⟩) ∧
    j % azs.length + 1 ≤ azs.length := by
  rcases Nat.lt_or_ge j azs.length with hlt | hge
  · have hmod : j % azs.length = j := Nat.mod_eq_of_lt hlt
    rw [hmod]
    refine ⟨?_, by omega⟩
    have hdrop : azs.drop j = azs[j] :: azs.drop (j + 1) := List.drop_eq_getElem_cons hlt
    have hgetd : azs.getD j d = azs[j] := by
      simp [List.getD_eq_getElem?_getD, List.getElem?_eq_getElem hlt]
    rw [hdrop, hgetd]
    rfl
  · have hj' : j = azs.length := le_antisymm hj hge
    subst hj'
    rw [Nat.mod_self]
    cases azs with
    | nil => simp at h
    | cons a tail =>
      rw [List.drop_length]
      exact ⟨rfl, by simp⟩

/-- The subnet-creation loop on a nonempty availability-zone list, when every
CIDR block passes the two-component check, succeeds and assigns the zones
cyclically: starting at cycle state `drop j`, the subnet at index `i` gets
zone `region ++ azs[(j + i) % azs.length]`. -/
theorem createSubnetsAux_ok (region vpcCidr : String) (azs : List String) (h : azs ≠ []) :
    ∀ (cidrBlocks : List String) (j : Nat), j ≤ azs.length →
    (∀ c ∈ cidrBlocks, cidrPrefixMismatch c vpcCidr = false) →
    ∃ subs, createSubnetsAux region vpcCidr cidrBlocks ⟨azs, azs.drop j⟩ = Except.ok subs ∧
      subs.length = cidrBlocks.length ∧
      ∀ i, subs[i]? = (cidrBlocks[i]?).map
        (fun c => (⟨c, region ++ azs.getD ((j + i) % azs.length) ""⟩ : Subnet)) := by
  intro cidrBlocks
  induction cidrBlocks with
  | nil =>
    intro j _ _
    exact ⟨[], rfl, rfl, fun i => by simp⟩
  | cons c rest ih =>
    intro j hj hm
    have hc : cidrPrefixMismatch c vpcCidr = false := hm c (by simp)
    obtain ⟨hnext, hle⟩ := PyCycle.next_drop "" azs h j hj
    obtain ⟨subs, hok, hlen, hget⟩ :=
      ih (j % azs.length + 1) hle (fun x hx => hm x (by simp [hx]))
    refine ⟨⟨c, region ++ azs.getD (j % azs.length) ""⟩ :: subs, ?_, by simp [hlen], ?_⟩
    · simp [createSubnetsAux, hc, hnext, hok, Except.map]
    · intro i
      cases i with
      | zero => simp
      | succ i =>
        have hidx : (j % azs.length + 1 + i) % azs.length = (j + (i + 1)) % azs.length := by
          rw [Nat.add_assoc, Nat.mod_add_mod]
          have : j + (1 + i) = j + (i + 1) := by omega
          rw [this]
        have := hget i
        rw [hidx] at this
        simpa using this

/-- The subnet-creation loop on a nonempty availability-zone list raises the
CIDR `RuntimeError` as soon as some CIDR block fails the two-component
check. -/
theorem createSubnetsAux_error (region vpcCidr : String) (azs : List String) (h : azs ≠ []) :
    ∀ (cidrBlocks : List String) (j : Nat), j ≤ azs.length →
    (∃ c ∈ cidrBlocks, cidrPrefixMismatch c vpcCidr = true) →
    createSubnetsAux region vpcCidr cidrBlocks ⟨azs, azs.drop j⟩ =
      Except.error cidrMismatchError := by
  intro cidrBlocks
  induction cidrBlocks with
  | nil => intro j _ hex; simp at hex
  | cons c rest ih =>
    intro j hj hex
    by_cases hc : cidrPrefixMismatch c vpcCidr = true
    · simp [createSubnetsAux, hc]
    · have hcf : cidrPrefixMismatch c vpcCidr = false := by simpa using hc
      obtain ⟨c0, hc0mem, hc0⟩ := hex
      have hc0rest : c0 ∈ rest := by
        rcases List.mem_cons.mp hc0mem with hceq | hcr
        · exact absurd (hceq ▸ hc0) hc
        · exact hcr
      obtain ⟨hnext, hle⟩ := PyCycle.next_drop "" azs h j hj
      have := ih (j % azs.length + 1) hle ⟨c0, hc0rest, hc0⟩
      simp [createSubnetsAux, hcf, hnext, this, Except.map]

/-- The subnet-import comprehension on a nonempty availability-zone list
always succeeds and assigns the zones cyclically, like the creation loop. -/
theorem importSubnetsGo_ok (region : String) (name : Nat → String) (azs : List String)
    (h : azs ≠ []) :
    ∀ (indices : List Nat) (j : Nat), j ≤ azs.length →
    ∃ subs, importSubnetsGo region name indices ⟨azs, azs.drop j⟩ = Except.ok subs ∧
      subs.length = indices.length ∧
      ∀ i, subs[i]? = (indices[i]?).map
        (fun index =>
          (⟨name (index + 1), region ++ azs.getD ((j + i) % azs.length) ""⟩ : ImportedSubnet)) := by
  intro indices
  induction indices with
  | nil =>
    intro j _
    exact ⟨[], rfl, rfl, fun i => by simp⟩
  | cons index rest ih =>
    intro j hj
    obtain ⟨hnext, hle⟩ := PyCycle.next_drop "" azs h j hj
    obtain ⟨subs, hok, hlen, hget⟩ := ih (j % azs.length + 1) hle
    refine ⟨⟨name (index + 1), region ++ azs.getD (j % azs.length) ""⟩ :: subs, ?_,
      by simp [hlen], ?_⟩
    · simp [importSubnetsGo, hnext, hok, Except.map]
    · intro i
      cases i with
      | zero => simp
      | succ i =>
        have hidx : (j % azs.length + 1 + i) % azs.length = (j + (i + 1)) % azs.length := by
          rw [Nat.add_assoc, Nat.mod_add_mod]
          have : j + (1 + i) = j + (i + 1) := by omega
          rw [this]
        have := hget i
        rw [hidx] at this
        simpa using this

/-- Bind on a successful `Except` computation. -/
theorem exceptOkBind {ε α β : Type} (a : α) (f : α → Except ε β) :
    (Except.ok a : Except ε α) >>= f = f a := rfl

/-- Bind on a failed `Except` computation. -/
theorem exceptErrorBind {ε α β : Type} (e : ε) (f : α → Except ε β) :
    (Except.error e : Except ε α) >>= f = Except.error e := rfl

/-- Map on a successful `Except` computation. -/
theorem exceptMapOk {ε α β : Type} (a : α) (f : α → β) :
    (Except.ok a : Except ε α).map f = Except.ok (f a) := rfl

/-- Map on a failed `Except` computation. -/
theorem exceptMapError {ε α β : Type} (e : ε) (f : α → β) :
    (Except.error e : Except ε α).map f = Except.error e := rfl

/-- A value returned by `Settings.get` comes from the attribute table. -/
theorem settings_get_mem {α : Type} (c : Settings α) (n : String) (v : α)
    (h : c.get n = Except.ok v) : v ∈ c.attrs.map Prod.snd := by
  unfold Settings.get at h
  cases hf : c.getattr n with
  | some w =>
    rw [hf] at h
    cases h
    obtain ⟨p, hp, hpv⟩ := Option.map_eq_some'.mp hf
    exact hpv ▸ List.mem_map_of_mem Prod.snd (List.mem_of_find?_eq_some hp)
  | none =>
    rw [hf] at h
    cases hd : c.getattr "default" with
    | some w =>
      rw [hd] at h
      cases h
      obtain ⟨p, hp, hpv⟩ := Option.map_eq_some'.mp hd
      exact hpv ▸ List.mem_map_of_mem Prod.snd (List.mem_of_find?_eq_some hp)
    | none => rw [hd] at h; cases h

/-- A successful availability-zone lookup always yields a nonempty list
(every configured tier lists at least two zones). -/
theorem azs_get_ne_nil (network : String) (azsL : List String)
    (h : AvailabilityZonesSettings.get network = Except.ok azsL) : azsL ≠ [] := by
  have := settings_get_mem AvailabilityZonesSettings network azsL h
  fin_cases this <;> simp

/-- The subnet-creation loop returns one subnet per CIDR block when it
succeeds. -/
theorem createSubnetsAux_length (region vpcCidr : String) :
    ∀ (cidrBlocks : List String) (azs : PyCycle String) (subs : List Subnet),
    createSubnetsAux region vpcCidr cidrBlocks azs = Except.ok subs →
    subs.length = cidrBlocks.length := by
  intro cidrBlocks
  induction cidrBlocks with
  | nil =>
    intro azs subs h
    unfold createSubnetsAux at h
    cases h
    rfl
  | cons c rest ih =>
    intro azs subs h
    by_cases hc : cidrPrefixMismatch c vpcCidr = true
    · simp [createSubnetsAux, hc] at h
    · have hcf : cidrPrefixMismatch c vpcCidr = false := by simpa using hc
      cases hnext : azs.next with
      | none => simp [createSubnetsAux, hcf, hnext] at h
      | some pair =>
        obtain ⟨az, azs2⟩ := pair
        cases hrec : createSubnetsAux region vpcCidr rest azs2 with
        | error e => simp [createSubnetsAux, hcf, hnext, hrec, Except.map] at h
        | ok subs2 =>
          simp [createSubnetsAux, hcf, hnext, hrec, Except.map] at h
          subst h
          simp [ih azs2 subs2 hrec]

/-- Unfolding `NetworkStack._create_public_subnets` once the three settings
lookups are known. -/
theorem createPublicSubnets_eq (region network vpcCidr : String) (cidrs azsL : List String)
    (hv : VpcCidrSettings.get network = Except.ok vpcCidr)
    (hp : PublicSubnetCidrSettings.get network = Except.ok cidrs)
    (hz : AvailabilityZonesSettings.get network = Except.ok azsL) :
    NetworkStack.createPublicSubnets region network =
      createSubnetsAux region vpcCidr cidrs ⟨azsL, azsL⟩ := by
  unfold NetworkStack.createPublicSubnets Settings.cycle
  rw [hv, exceptOkBind, hp, exceptOkBind, hz, exceptMapOk, exceptOkBind]

/-- Unfolding `NetworkStack._create_private_subnets` once the three settings
lookups are known. -/
theorem createPrivateSubnets_eq (region network vpcCidr : String) (cidrs azsL : List String)
    (hv : VpcCidrSettings.get network = Except.ok vpcCidr)
    (hp : PrivateSubnetCidrSettings.get network = Except.ok cidrs)
    (hz : AvailabilityZonesSettings.get network = Except.ok azsL) :
    NetworkStack.createPrivateSubnets region network =
      createSubnetsAux region vpcCidr cidrs ⟨azsL, azsL⟩ := by
  unfold NetworkStack.createPrivateSubnets Settings.cycle
  rw [hv, exceptOkBind, hp, exceptOkBind, hz, exceptMapOk, exceptOkBind]

/--
Claim C3: subnet creation raises `RuntimeError` exactly when a subnet CIDR
block disagrees with the VPC CIDR on the first two dotted components; for
each configured tier (mainnet, testnet, devnet) every public and private
subnet CIDR in the settings shares its first two dotted components with the
tier's VPC CIDR, so subnet creation never takes the error branch for the
configured tiers.
-/
theorem network_cidr_validation :
    (∀ (region vpcCidr : String) (cidrBlocks azs : List String), azs ≠ [] →
      (createSubnetsAux region vpcCidr cidrBlocks ⟨azs, azs⟩ = Except.error cidrMismatchError ↔
        ∃ c ∈ cidrBlocks, (pySplitOn '.' c).take 2 ≠ (pySplitOn '.' vpcCidr).take 2)) ∧
    (∀ tier ∈ (["mainnet", "testnet", "devnet"] : List String),
      ∃ vpcCidr publicCidrs privateCidrs,
        VpcCidrSettings.get tier = Except.ok vpcCidr ∧
        PublicSubnetCidrSettings.get tier = Except.ok publicCidrs ∧
        PrivateSubnetCidrSettings.get tier = Except.ok privateCidrs ∧
        ∀ c ∈ publicCidrs ++ privateCidrs,
          (pySplitOn '.' c).take 2 = (pySplitOn '.' vpcCidr).take 2) ∧
    (∀ tier ∈ (["mainnet", "testnet", "devnet"] : List String), ∀ region,
      ∃ publicSubnets privateSubnets,
        NetworkStack.createPublicSubnets region tier = Except.ok publicSubnets ∧
        NetworkStack.createPrivateSubnets region tier = Except.ok privateSubnets) := by
  refine ⟨?_, ?_, ?_⟩
  · intro region vpcCidr cidrBlocks azs h
    constructor
    · intro herr
      by_contra hall
      push_neg at hall
      have hall2 : ∀ c ∈ cidrBlocks, cidrPrefixMismatch c vpcCidr = false := by
        intro c hc
        have := hall c hc
        simp [cidrPrefixMismatch, bne_eq_false_iff_eq]
        exact this
      obtain ⟨subs, hok, -, -⟩ :=
        createSubnetsAux_ok region vpcCidr azs h cidrBlocks 0 (Nat.zero_le _) hall2
      rw [show azs.drop 0 = azs from List.drop_zero azs] at hok
      rw [hok] at herr
      cases herr
    · intro ⟨c, hcmem, hc⟩
      have := createSubnetsAux_error region vpcCidr azs h cidrBlocks 0 (Nat.zero_le _)
        ⟨c, hcmem, by simpa [cidrPrefixMismatch, bne_iff_ne] using hc⟩
      rwa [show azs.drop 0 = azs from List.drop_zero azs] at this
  · intro tier htier
    fin_cases htier
    · exact ⟨"10.0.0.0/16", ["10.0.0.0/19", "10.0.32.0/19", "10.0.64.0/19"],
        ["10.0.96.0/19", "10.0.128.0/19", "10.0.160.0/19"], rfl, rfl, rfl, by decide⟩
    · exact ⟨"10.1.0.0/16", ["10.1.0.0/19", "10.1.32.0/19"],
        ["10.1.64.0/19", "10.1.96.0/19"], rfl, rfl, rfl, by decide⟩
    · exact ⟨"10.11.0.0/16", ["10.11.0.0/19", "10.11.32.0/19"],
        ["10.11.64.0/19", "10.11.96.0/19"], rfl, rfl, rfl, by decide⟩
  · intro tier htier region
    fin_cases htier
    · obtain ⟨pubs, hpubs, -, -⟩ := createSubnetsAux_ok region "10.0.0.0/16"
        ["a", "b", "c"] (by simp) ["10.0.0.0/19", "10.0.32.0/19", "10.0.64.0/19"]
        0 (Nat.zero_le _) (by decide)
      obtain ⟨privs, hprivs, -, -⟩ := createSubnetsAux_ok region "10.0.0.0/16"
        ["a", "b", "c"] (by simp) ["10.0.96.0/19", "10.0.128.0/19", "10.0.160.0/19"]
        0 (Nat.zero_le _) (by decide)
      exact ⟨pubs, privs,
        by rw [createPublicSubnets_eq region "mainnet" _ _ _ rfl rfl rfl]; exact hpubs,
        by rw [createPrivateSubnets_eq region "mainnet" _ _ _ rfl rfl rfl]; exact hprivs⟩
    · obtain ⟨pubs, hpubs, -, -⟩ := createSubnetsAux_ok region "10.1.0.0/16"
        ["a", "b"] (by simp) ["10.1.0.0/19", "10.1.32.0/19"] 0 (Nat.zero_le _) (by decide)
      obtain ⟨privs, hprivs, -, -⟩ := createSubnetsAux_ok region "10.1.0.0/16"
        ["a", "b"] (by simp) ["10.1.64.0/19", "10.1.96.0/19"] 0 (Nat.zero_le _) (by decide)
      exact ⟨pubs, privs,
        by rw [createPublicSubnets_eq region "testnet" _ _ _ rfl rfl rfl]; exact hpubs,
        by rw [createPrivateSubnets_eq region "testnet" _ _ _ rfl rfl rfl]; exact hprivs⟩
    · obtain ⟨pubs, hpubs, -, -⟩ := createSubnetsAux_ok region "10.11.0.0/16"
        ["a", "b"] (by simp) ["10.11.0.0/19", "10.11.32.0/19"] 0 (Nat.zero_le _) (by decide)
      obtain ⟨privs, hprivs, -, -⟩ := createSubnetsAux_ok region "10.11.0.0/16"
        ["a", "b"] (by simp) ["10.11.64.0/19", "10.11.96.0/19"] 0 (Nat.zero_le _) (by decide)
      exact ⟨pubs, privs,
        by rw [createPublicSubnets_eq region "devnet" _ _ _ rfl rfl rfl]; exact hpubs,
        by rw [createPrivateSubnets_eq region "devnet" _ _ _ rfl rfl rfl]; exact hprivs⟩

/--
Witness for C3: for the mainnet tier and a concrete region, subnet creation
succeeds; and a CIDR block whose first two components disagree with the VPC
CIDR makes the loop raise the `RuntimeError`.
-/
theorem network_cidr_validation_witness :
    (∃ publicSubnets privateSubnets,
      NetworkStack.createPublicSubnets "us-west-2" "mainnet" = Except.ok publicSubnets ∧
      NetworkStack.createPrivateSubnets "us-west-2" "mainnet" = Except.ok privateSubnets) ∧
    createSubnetsAux "us-west-2" "10.0.0.0/16" ["10.5.0.0/19"] ⟨["a"], ["a"]⟩ =
      Except.error cidrMismatchError :=
  ⟨network_cidr_validation.2.2 "mainnet" (by decide) "us-west-2",
   (network_cidr_validation.1 "us-west-2" "10.0.0.0/16" ["10.5.0.0/19"] ["a"]
      (by decide)).mpr ⟨"10.5.0.0/19", by decide, by decide⟩⟩

/--
Claim C8: when subnets are created (network.py) or imported (protected.py)
against an availability-zone list `azs` of length `k > 0`, the subnet at
zero-based index `i` is assigned availability zone `region ++ azs[i % k]`;
in particular, when there are more subnets than zones the assignment wraps
around cyclically instead of failing.
-/
theorem subnet_az_cyclic_assignment :
    (∀ (region vpcCidr : String) (cidrBlocks azs : List String), azs ≠ [] →
      (∀ c ∈ cidrBlocks, cidrPrefixMismatch c vpcCidr = false) →
      ∃ subs, createSubnetsAux region vpcCidr cidrBlocks ⟨azs, azs⟩ = Except.ok subs ∧
        subs.length = cidrBlocks.length ∧
        ∀ i, i < cidrBlocks.length →
          (subs[i]?).map Subnet.availabilityZone =
            some (region ++ azs.getD (i % azs.length) "")) ∧
    (∀ (region : String) (name : Nat → String) (count : Nat) (azs : List String), azs ≠ [] →
      ∃ subs, importSubnetsGo region name (List.range count) ⟨azs, azs⟩ = Except.ok subs ∧
        subs.length = count ∧
        ∀ i, i < count →
          (subs[i]?).map ImportedSubnet.availabilityZone =
            some (region ++ azs.getD (i % azs.length) "")) := by
  constructor
  · intro region vpcCidr cidrBlocks azs h hm
    obtain ⟨subs, hok, hlen, hpt⟩ :=
      createSubnetsAux_ok region vpcCidr azs h cidrBlocks 0 (Nat.zero_le _) hm
    rw [show azs.drop 0 = azs from List.drop_zero azs] at hok
    refine ⟨subs, hok, hlen, ?_⟩
    intro i hi
    have := hpt i
    rw [List.getElem?_eq_getElem hi] at this
    rw [this]
    simp
  · intro region name count azs h
    obtain ⟨subs, hok, hlen, hpt⟩ :=
      importSubnetsGo_ok region name azs h (List.range count) 0 (Nat.zero_le _)
    rw [show azs.drop 0 = azs from List.drop_zero azs] at hok
    refine ⟨subs, hok, by simpa using hlen, ?_⟩
    intro i hi
    have := hpt i
    rw [List.getElem?_eq_getElem (by simpa using hi : i < (List.range count).length)] at this
    rw [this]
    simp

/--
Witness for C8 at a wrap-around instance: three CIDR blocks over two
availability zones; the subnet at index 2 cycles back to zone `a`.
-/
theorem subnet_az_cyclic_assignment_witness :
    ∃ subs, createSubnetsAux "us-west-2" "10.0.0.0/16"
        ["10.0.0.0/19", "10.0.32.0/19", "10.0.64.0/19"] ⟨["a", "b"], ["a", "b"]⟩ =
        Except.ok subs ∧
      (subs[2]?).map Subnet.availabilityZone = some "us-west-2a" := by
  obtain ⟨subs, hok, -, hpt⟩ := subnet_az_cyclic_assignment.1 "us-west-2" "10.0.0.0/16"
    ["10.0.0.0/19", "10.0.32.0/19", "10.0.64.0/19"] ["a", "b"] (by decide) (by decide)
  refine ⟨subs, hok, ?_⟩
  have := hpt 2 (by decide)
  rw [this]
  rfl

/--
Claim C4: for every application name and network tier, the set of export
names published by `NetworkStack.export` (the VPC id name plus one name per
public subnet and one per private subnet, indexed from 1) equals the set
of import names looked up by `NetworkProtectedStack.load`, and the number
of imported public (respectively private) subnets equals the length of the
configured public (respectively private) subnet CIDR list for the tier.
-/
theorem network_export_import_names (application network region : String)
    (exports imports : List String)
    (hE : NetworkStack.deployExportNames application network region = Except.ok exports)
    (hI : NetworkProtectedStack.loadImportNames application network region =
      Except.ok imports) :
    (∀ x, x ∈ exports ↔ x ∈ imports) ∧
    (∀ publicCidrs, PublicSubnetCidrSettings.get network = Except.ok publicCidrs →
      ∃ subs, NetworkProtectedStack.importPublicSubnets region application network =
          Except.ok subs ∧
        subs.length = publicCidrs.length) ∧
    (∀ privateCidrs, PrivateSubnetCidrSettings.get network = Except.ok privateCidrs →
      ∃ subs, NetworkProtectedStack.importPrivateSubnets region application network =
          Except.ok subs ∧
        subs.length = privateCidrs.length) := by
  have ha : ¬application = "" := by
    intro ha
    unfold NetworkStack.deployExportNames at hE
    rw [if_pos ha] at hE
    cases hE
  have hn : ¬network = "" := by
    intro hn
    unfold NetworkStack.deployExportNames at hE
    rw [if_neg ha, if_pos hn] at hE
    cases hE
  have hr : ¬region = "" := by
    intro hr
    unfold NetworkStack.deployExportNames at hE
    rw [if_neg ha, if_neg hn, if_pos hr] at hE
    cases hE
  unfold NetworkStack.deployExportNames at hE
  rw [if_neg ha, if_neg hn, if_neg hr] at hE
  cases hcp : NetworkStack.createPublicSubnets region network with
  | error e => rw [hcp, exceptErrorBind] at hE; cases hE
  | ok pubs =>
  rw [hcp, exceptOkBind] at hE
  cases hcq : NetworkStack.createPrivateSubnets region network with
  | error e => rw [hcq, exceptErrorBind] at hE; cases hE
  | ok privs =>
  rw [hcq, exceptOkBind] at hE
  cases hE
  cases hv : VpcCidrSettings.get network with
  | error e =>
    have : NetworkStack.createPublicSubnets region network = Except.error e := by
      unfold NetworkStack.createPublicSubnets
      rw [hv, exceptErrorBind]
    rw [this] at hcp
    cases hcp
  | ok vpcCidr =>
  cases hp : PublicSubnetCidrSettings.get network with
  | error e =>
    have : NetworkStack.createPublicSubnets region network = Except.error e := by
      unfold NetworkStack.createPublicSubnets
      rw [hv, exceptOkBind, hp, exceptErrorBind]
    rw [this] at hcp
    cases hcp
  | ok pubCidrs =>
  cases hz : AvailabilityZonesSettings.get network with
  | error e =>
    have : NetworkStack.createPublicSubnets region network = Except.error e := by
      unfold NetworkStack.createPublicSubnets Settings.cycle
      rw [hv, exceptOkBind, hp, exceptOkBind, hz, exceptMapError, exceptErrorBind]
    rw [this] at hcp
    cases hcp
  | ok azsL =>
  cases hq : PrivateSubnetCidrSettings.get network with
  | error e =>
    have : NetworkStack.createPrivateSubnets region network = Except.error e := by
      unfold NetworkStack.createPrivateSubnets
      rw [hv, exceptOkBind, hq, exceptErrorBind]
    rw [this] at hcq
    cases hcq
  | ok privCidrs =>
  rw [createPublicSubnets_eq region network vpcCidr pubCidrs azsL hv hp hz] at hcp
  rw [createPrivateSubnets_eq region network vpcCidr privCidrs azsL hv hq hz] at hcq
  have hlenpub : pubs.length = pubCidrs.length :=
    createSubnetsAux_length region vpcCidr pubCidrs ⟨azsL, azsL⟩ pubs hcp
  have hlenpriv : privs.length = privCidrs.length :=
    createSubnetsAux_length region vpcCidr privCidrs ⟨azsL, azsL⟩ privs hcq
  have haz : azsL ≠ [] := azs_get_ne_nil network azsL hz
  unfold NetworkProtectedStack.loadImportNames at hI
  rw [if_neg ha, if_neg hn, if_neg hr, hv, exceptOkBind, hz, exceptOkBind, hp, exceptOkBind,
    hq, exceptOkBind] at hI
  cases hI
  refine ⟨?_, ?_, ?_⟩
  · intro x
    unfold NetworkStack.exportNames
    rw [hlenpub, hlenpriv]
    simp only [List.mem_append, List.mem_cons]
    tauto
  · intro publicCidrs hp2
    obtain rfl : pubCidrs = publicCidrs := Except.ok.inj hp2
    obtain ⟨subs, hok, hlen, -⟩ := importSubnetsGo_ok region
      (publicSubnetExportName application network) azsL haz
      (List.range pubCidrs.length) 0 (Nat.zero_le _)
    rw [show azsL.drop 0 = azsL from List.drop_zero azsL] at hok
    refine ⟨subs, ?_, by simpa using hlen⟩
    unfold NetworkProtectedStack.importPublicSubnets Settings.cycle Settings.length
    rw [if_neg hr, if_neg hn, if_neg ha, hz, exceptMapOk, exceptOkBind,
      hp, exceptMapOk, exceptOkBind]
    exact hok
  · intro privateCidrs hq2
    obtain rfl : privCidrs = privateCidrs := Except.ok.inj hq2
    obtain ⟨subs, hok, hlen, -⟩ := importSubnetsGo_ok region
      (privateSubnetExportName application network) azsL haz
      (List.range privCidrs.length) 0 (Nat.zero_le _)
    rw [show azsL.drop 0 = azsL from List.drop_zero azsL] at hok
    refine ⟨subs, ?_, by simpa using hlen⟩
    unfold NetworkProtectedStack.importPrivateSubnets Settings.cycle Settings.length
    rw [hz, exceptMapOk, exceptOkBind, hq, exceptMapOk, exceptOkBind]
    exact hok

/--
Witness for C4 at a concrete application and the mainnet tier: both the
deploy-export and the load-import computations succeed and publish/look up
the same set of names.
-/
theorem network_export_import_names_witness :
    ∃ exports imports,
      NetworkStack.deployExportNames "myapp" "mainnet" "us-west-2" = Except.ok exports ∧
      NetworkProtectedStack.loadImportNames "myapp" "mainnet" "us-west-2" =
        Except.ok imports ∧
      (∀ x, x ∈ exports ↔ x ∈ imports) := by
  have hE : NetworkStack.deployExportNames "myapp" "mainnet" "us-west-2" =
      Except.ok
        ["myapp::mainnet::vpc::id",
         "myapp::mainnet::subnet::public::1::id",
         "myapp::mainnet::subnet::public::2::id",
         "myapp::mainnet::subnet::public::3::id",
         "myapp::mainnet::subnet::private::1::id",
         "myapp::mainnet::subnet::private::2::id",
         "myapp::mainnet::subnet::private::3::id"] := by rfl
  have hI : NetworkProtectedStack.loadImportNames "myapp" "mainnet" "us-west-2" =
      Except.ok
        ["myapp::mainnet::vpc::id",
         "myapp::mainnet::subnet::public::1::id",
         "myapp::mainnet::subnet::public::2::id",
         "myapp::mainnet::subnet::public::3::id",
         "myapp::mainnet::subnet::private::1::id",
         "myapp::mainnet::subnet::private::2::id",
         "myapp::mainnet::subnet::private::3::id",
         "myapp::mainnet::subnet::public::1::id",
         "myapp::mainnet::subnet::public::2::id",
         "myapp::mainnet::subnet::public::3::id",
         "myapp::mainnet::subnet::private::1::id",
         "myapp::mainnet::subnet::private::2::id",
         "myapp::mainnet::subnet::private::3::id"] := by rfl
  exact ⟨_, _, hE, hI,
    (network_export_import_names "myapp" "mainnet" "us-west-2" _ _ hE hI).1⟩

/--
Claim C1: for every `Settings` subclass and every name, `get` returns the
attribute of that exact name when the class defines or inherits it (so in
particular the exact name takes precedence over `default` when both exist);
otherwise it returns the `default` attribute when one exists; otherwise it
raises `KeyError`.
-/
theorem settings_get_resolution (c : Settings α) (name : String) :
    (∀ v, c.getattr name = some v → c.get name = Except.ok v) ∧
    (c.getattr name = none →
      (∀ d, c.getattr "default" = some d → c.get name = Except.ok d) ∧
      (c.getattr "default" = none →
        c.get name = Except.error ("KeyError: Not supported: " ++ name))) := by
  refine ⟨fun v hv => ?_, fun hn => ⟨fun d hd => ?_, fun hd => ?_⟩⟩
  · simp [Settings.get, hv]
  · simp [Settings.get, hn, hd]
  · simp [Settings.get, hn, hd]

/--
Witness for C1 at concrete inputs: `MinNodesSettings` resolves `proddb` to
its exact attribute 4 (not the default, which also exists), resolves the
absent key `mainnet` to the default 1, and `VpcCidrSettings` (which has no
default) raises `KeyError` on an absent key.
-/
theorem settings_get_resolution_witness :
    MinNodesSettings.get "proddb" = Except.ok 4 ∧
    MinNodesSettings.get "mainnet" = Except.ok 1 ∧
    VpcCidrSettings.get "nonet" = Except.error ("KeyError: Not supported: " ++ "nonet") :=
  ⟨(settings_get_resolution MinNodesSettings "proddb").1 4 rfl,
   ((settings_get_resolution MinNodesSettings "mainnet").2 rfl).1 1 rfl,
   ((settings_get_resolution VpcCidrSettings "nonet").2 rfl).2 rfl⟩

/-- `Nat.digitChar` of a value below ten is a decimal digit. -/
theorem digitChar_isDigit (n : Nat) (h : n < 10) : (Nat.digitChar n).isDigit = true := by
  interval_cases n <;> decide

/-- Every character `Nat.toDigitsCore` in base ten adds to a digit-only
accumulator is a decimal digit. -/
theorem toDigitsCore_isDigit :
    ∀ (fuel n : Nat) (ds : List Char), (∀ c ∈ ds, c.isDigit = true) →
    ∀ c ∈ Nat.toDigitsCore 10 fuel n ds, c.isDigit = true := by
  intro fuel
  induction fuel with
  | zero =>
    intro n ds hds c hc
    exact hds c (by simpa [Nat.toDigitsCore] using hc)
  | succ fuel ih =>
    intro n ds hds c hc
    rw [show Nat.toDigitsCore 10 (fuel + 1) n ds =
        (if n / 10 = 0 then Nat.digitChar (n % 10) :: ds
         else Nat.toDigitsCore 10 fuel (n / 10) (Nat.digitChar (n % 10) :: ds)) from rfl] at hc
    have hd : (Nat.digitChar (n % 10)).isDigit = true :=
      digitChar_isDigit _ (Nat.mod_lt _ (by decide))
    by_cases h0 : n / 10 = 0
    · rw [if_pos h0] at hc
      rcases List.mem_cons.mp hc with rfl | hmem
      · exact hd
      · exact hds c hmem
    · rw [if_neg h0] at hc
      refine ih (n / 10) (Nat.digitChar (n % 10) :: ds) ?_ c hc
      intro x hx
      rcases List.mem_cons.mp hx with rfl | hxx
      · exact hd
      · exact hds x hxx

/-- `Nat.toDigitsCore` never discards its accumulator. -/
theorem toDigitsCore_ne_nil :
    ∀ (fuel n : Nat) (ds : List Char), ds ≠ [] → Nat.toDigitsCore 10 fuel n ds ≠ [] := by
  intro fuel
  induction fuel with
  | zero => intro n ds h; simpa [Nat.toDigitsCore] using h
  | succ fuel ih =>
    intro n ds h
    rw [show Nat.toDigitsCore 10 (fuel + 1) n ds =
        (if n / 10 = 0 then Nat.digitChar (n % 10) :: ds
         else Nat.toDigitsCore 10 fuel (n / 10) (Nat.digitChar (n % 10) :: ds)) from rfl]
    by_cases h0 : n / 10 = 0
    · rw [if_pos h0]; simp
    · rw [if_neg h0]; exact ih (n / 10) _ (by simp)

/-- The base-ten digit list of a natural number is nonempty. -/
theorem toDigits_ne_nil (n : Nat) : Nat.toDigits 10 n ≠ [] := by
  rw [show Nat.toDigits 10 n =
      (if n / 10 = 0 then [Nat.digitChar (n % 10)]
       else Nat.toDigitsCore 10 n (n / 10) [Nat.digitChar (n % 10)]) from rfl]
  by_cases h0 : n / 10 = 0
  · rw [if_pos h0]; simp
  · rw [if_neg h0]; exact toDigitsCore_ne_nil n (n / 10) _ (by simp)

/-- The characters of `str(n)` are the base-ten digit list of `n`. -/
theorem natRepr_data (n : Nat) : (Nat.repr n).data = Nat.toDigits 10 n := rfl

/-- The last element of a nonempty list is a member. -/
theorem getLastD_mem_of_ne_nil {α : Type} (l : List α) (d : α) (h : l ≠ []) :
    l.getLastD d ∈ l := by
  rw [List.getLastD_eq_getLast?, List.getLast?_eq_getLast l h]
  exact List.getLast_mem h

/--
Claim C2: `DatabaseStack._create_db` restores from a snapshot if and only
if `_snapshot_exists()` returns true and otherwise creates from scratch;
`_snapshot_exists` returns false on a `DBSnapshotNotFound` failure of the
listing call or an empty listing, returns whether the first listed snapshot
has status `available`, and re-raises any other exception of the listing
call.
-/
theorem database_snapshot_logic :
    (∀ response b, DatabaseStack.snapshotExists response = Except.ok b →
      DatabaseStack.createDb response =
        Except.ok (if b then DbCreation.fromSnapshot else DbCreation.fromScratch)) ∧
    (∀ response e, DatabaseStack.snapshotExists response = Except.error e →
      DatabaseStack.createDb response = Except.error e) ∧
    (∀ e, pyInStr "DBSnapshotNotFound" e = true →
      DatabaseStack.snapshotExists (Except.error e) = Except.ok false) ∧
    (∀ e, pyInStr "DBSnapshotNotFound" e = false →
      DatabaseStack.snapshotExists (Except.error e) = Except.error e) ∧
    (DatabaseStack.snapshotExists (Except.ok []) = Except.ok false) ∧
    (∀ s rest, s.status = "available" →
      DatabaseStack.snapshotExists (Except.ok (s :: rest)) = Except.ok true) ∧
    (∀ s rest, s.status ≠ "available" →
      DatabaseStack.snapshotExists (Except.ok (s :: rest)) = Except.ok false) := by
  refine ⟨?_, ?_, ?_, ?_, rfl, ?_, ?_⟩
  · intro response b h
    unfold DatabaseStack.createDb
    rw [h]
    cases b <;> rfl
  · intro response e h
    unfold DatabaseStack.createDb
    rw [h]
  · intro e he
    simp [DatabaseStack.snapshotExists, he]
  · intro e he
    simp [DatabaseStack.snapshotExists, he]
  · intro s rest hs
    simp [DatabaseStack.snapshotExists, hs]
  · intro s rest hs
    have hb : (s.status == "available") = false := beq_eq_false_iff_ne.mpr hs
    simp [DatabaseStack.snapshotExists, hb]

/--
Witness for C2 at concrete listings: an available snapshot restores from
the snapshot, a non-available one and a `DBSnapshotNotFound` failure fall
back to creation from scratch, and an unrelated exception is re-raised.
-/
theorem database_snapshot_logic_witness :
    DatabaseStack.createDb (Except.ok [⟨"available"⟩]) = Except.ok DbCreation.fromSnapshot ∧
    DatabaseStack.createDb (Except.ok [⟨"creating"⟩]) = Except.ok DbCreation.fromScratch ∧
    DatabaseStack.snapshotExists
      (Except.error "An error occurred DBSnapshotNotFound when calling") = Except.ok false ∧
    DatabaseStack.snapshotExists (Except.error "AccessDenied") =
      Except.error "AccessDenied" := by
  refine ⟨?_, ?_, ?_, ?_⟩
  · have h6 := database_snapshot_logic.2.2.2.2.2.1 ⟨"available"⟩ [] rfl
    simpa using database_snapshot_logic.1 _ _ h6
  · have h7 := database_snapshot_logic.2.2.2.2.2.2 ⟨"creating"⟩ [] (by decide)
    simpa using database_snapshot_logic.1 _ _ h7
  · exact database_snapshot_logic.2.2.1 _ (by decide)
  · exact database_snapshot_logic.2.2.2.1 _ (by decide)

/--
Counterexample to C5 as stated: it is not the case that every
`add_dependency` constraint has its depended-upon stack instantiated before
the dependent stack — `registry.add_dependency(network)` is declared, yet
app.py instantiates `registry` (position 0) before `network` (position 1).
-/
theorem app_dependency_order_counterexample :
    ¬ ∀ p ∈ appDependencies, appStackOrder.indexOf p.2 < appStackOrder.indexOf p.1 := by
  decide

/--
Claim C5 as amended: for every `add_dependency` constraint except
`registry.add_dependency(network)`, the depended-upon stack is instantiated
(and its load/deploy/export run) before the dependent stack; the registry
stack alone is instantiated before the network stack it depends on.
-/
theorem app_dependency_order :
    (("registry", "network") ∈ appDependencies ∧
      appStackOrder.indexOf "network" > appStackOrder.indexOf "registry") ∧
    ∀ p ∈ appDependencies, p ≠ ("registry", "network") →
      appStackOrder.indexOf p.2 < appStackOrder.indexOf p.1 := by
  decide

/-- Witness for C5 (amended) at a concrete constraint: the network stack is
instantiated before the bastion stack that depends on it. -/
theorem app_dependency_order_witness :
    appStackOrder.indexOf "network" < appStackOrder.indexOf "bastion" :=
  app_dependency_order.2 ("bastion", "network") (by decide) (by decide)

/--
Counterexample to C6 as stated: the top-level orchestrator does not compose
nine concrete stacks.
-/
theorem app_stack_count_counterexample : ¬ appStackOrder.length = 9 := by decide

/--
Claim C6 as amended: the top-level orchestrator composes exactly ten
distinct concrete stacks (registry, network, security, bastion,
application, media, cache, opensearch, database, environment).
-/
theorem app_stack_count : appStackOrder.length = 10 ∧ appStackOrder.Nodup := by decide

/--
Counterexample to C7 as stated: it is not the case that no operation
catches an error to recover or continue — `DatabaseStack._snapshot_exists`
catches the `DBSnapshotNotFound` failure of the snapshot-listing call and
continues, reporting that no snapshot exists instead of propagating the
error.
-/
theorem no_error_recovery_counterexample :
    ¬ ∀ e, DatabaseStack.snapshotExists (Except.error e) = Except.error e := by
  intro h
  have h2 := h "DBSnapshotNotFound"
  have h3 : DatabaseStack.snapshotExists (Except.error "DBSnapshotNotFound") =
      Except.ok false := by rfl
  rw [h3] at h2
  cases h2

/--
Claim C7 as amended: validation raises immediately on missing required
fields, and the single piece of error recovery in the code is
`DatabaseStack._snapshot_exists`, which catches exactly the listing errors
mentioning `DBSnapshotNotFound` — treating them as "no snapshot", so that
`_create_db` continues and creates the database from scratch — and
re-raises every other listing error.
-/
theorem error_recovery_amended :
    (∀ e, DatabaseStack.snapshotExists (Except.error e) =
      if pyInStr "DBSnapshotNotFound" e then Except.ok false else Except.error e) ∧
    (∀ e, pyInStr "DBSnapshotNotFound" e = true →
      DatabaseStack.createDb (Except.error e) = Except.ok DbCreation.fromScratch) ∧
    (∀ e, pyInStr "DBSnapshotNotFound" e = false →
      DatabaseStack.createDb (Except.error e) = Except.error e) := by
  refine ⟨fun e => rfl, ?_, ?_⟩
  · intro e he
    simp [DatabaseStack.createDb, DatabaseStack.snapshotExists, he]
  · intro e he
    simp [DatabaseStack.createDb, DatabaseStack.snapshotExists, he]

/-- Witness for C7 (amended): a concrete `DBSnapshotNotFound` listing error
is swallowed and the database is created from scratch, while an unrelated
error propagates. -/
theorem error_recovery_amended_witness :
    DatabaseStack.createDb (Except.error "DBSnapshotNotFound: latest") =
      Except.ok DbCreation.fromScratch ∧
    DatabaseStack.createDb (Except.error "Throttled") = Except.error "Throttled" :=
  ⟨error_recovery_amended.2.1 "DBSnapshotNotFound: latest" (by rfl),
   error_recovery_amended.2.2 "Throttled" (by rfl)⟩

/--
Claim C9, evaluated at the failing inputs: the Beanstalk autoscaling
options for the `proddb` environment tier are `MinSize 4, MaxSize 2` and
for `demodb` they are `MinSize 2, MaxSize 1` — in both cases
`MinNodesSettings.get` exceeds `MaxNodesSettings.get`, violating
`MinSize ≤ MaxSize`.
-/
theorem autoscaling_min_exceeds_max :
    BeanstalkStack.getAutoscalingOptions "proddb" =
      Except.ok [("MinSize", 4), ("MaxSize", 2)] ∧
    BeanstalkStack.getAutoscalingOptions "demodb" =
      Except.ok [("MinSize", 2), ("MaxSize", 1)] ∧
    MinNodesSettings.get "proddb" = Except.ok 4 ∧
    MaxNodesSettings.get "proddb" = Except.ok 2 ∧
    ¬ (4 : Nat) ≤ 2 :=
  ⟨rfl, rfl, rfl, rfl, by decide⟩

/--
Counterexample to C10 as stated: for the non-empty network name
`"stagenet"` (for which the shared-cache setting does not resolve and no
default exists), `_get_redis_db` raises `KeyError` instead of returning a
digit string.
-/
theorem redis_db_unconfigured_network :
    BeanstalkStack.getRedisDb "stagenet" "prod" =
      Except.error ("KeyError: Not supported: " ++ "stagenet") := rfl

/--
Claim C10 as amended: for every non-empty network name whose shared-cache
setting resolves and every non-empty environment name, `_get_redis_db`
returns a one-character decimal-digit string: `"0"` whenever the setting is
truthy, and otherwise the last digit of `sha256(environment) mod 10 ** 8` —
a value that depends only on the environment string, so any two networks
with a falsy shared-cache setting yield the same digit for the same
environment.
-/
theorem redis_db_amended :
    (∀ network environment shared, network ≠ "" → environment ≠ "" →
      SharedCacheDatabaseSettings.get network = Except.ok shared →
      ∃ s, BeanstalkStack.getRedisDb network environment = Except.ok s ∧
        s.length = 1 ∧ (∀ c ∈ s.data, c.isDigit = true) ∧
        (shared = true → s = "0") ∧
        (shared = false →
          s = String.mk [(Nat.repr (sha256Nat environment % 10 ^ 8)).data.getLastD ' '])) ∧
    (∀ n1 n2 environment, n1 ≠ "" → n2 ≠ "" → environment ≠ "" →
      SharedCacheDatabaseSettings.get n1 = Except.ok false →
      SharedCacheDatabaseSettings.get n2 = Except.ok false →
      BeanstalkStack.getRedisDb n1 environment =
        BeanstalkStack.getRedisDb n2 environment) := by
  constructor
  · intro network environment shared hn he hs
    unfold BeanstalkStack.getRedisDb
    rw [if_neg hn, if_neg he, hs, exceptOkBind]
    cases shared with
    | true =>
      rw [if_pos rfl]
      exact ⟨"0", rfl, rfl, by decide, fun _ => rfl, fun hf => nomatch hf⟩
    | false =>
      rw [if_neg (by decide)]
      refine ⟨String.mk [(Nat.repr (sha256Nat environment % 10 ^ 8)).data.getLastD ' '],
        rfl, rfl, ?_, ?_, fun _ => rfl⟩
      · intro c hc
        have hc2 : c = (Nat.repr (sha256Nat environment % 10 ^ 8)).data.getLastD ' ' := by
          simpa using hc
        subst hc2
        have hne : (Nat.repr (sha256Nat environment % 10 ^ 8)).data ≠ [] := by
          rw [natRepr_data]
          exact toDigits_ne_nil _
        have hall : ∀ c ∈ (Nat.repr (sha256Nat environment % 10 ^ 8)).data,
            c.isDigit = true := by
          rw [natRepr_data]
          exact toDigitsCore_isDigit _ _ [] (by simp)
        exact hall _ (getLastD_mem_of_ne_nil _ ' ' hne)
      · intro ht
        exact absurd ht (by decide)
  · intro n1 n2 environment hn1 hn2 henv h1 h2
    unfold BeanstalkStack.getRedisDb
    simp [hn1, hn2, henv, h1, h2, exceptOkBind]

/--
Witness for C10 (amended) at the devnet tier (falsy shared-cache setting)
and environment `"prod"`: the result is the concrete one-character digit
string `"7"`.
-/
theorem redis_db_amended_witness :
    (∃ s, BeanstalkStack.getRedisDb "devnet" "prod" = Except.ok s ∧
      s.length = 1 ∧ (∀ c ∈ s.data, c.isDigit = true)) ∧
    BeanstalkStack.getRedisDb "devnet" "prod" = Except.ok "7" := by
  constructor
  · obtain ⟨s, h1, h2, h3, -, -⟩ :=
      redis_db_amended.1 "devnet" "prod" false (by decide) (by decide) rfl
    exact ⟨s, h1, h2, h3⟩
  · rfl
